import Mathlib

/-!
# Verification of the Webflow form-validation script (`src/validation.js`)

Shallow embedding of the validation layer: the key normalizer, the error-map
builder, the field validator, the error presenter and the form controller are
translated into executable Lean definitions, and the specified properties are
proved (or refuted) about those definitions.

Strings are manipulated through their character lists; JavaScript string
primitives (`toLowerCase`, `trim`, the regex literals used by the script) are
modelled for the ASCII fragment that the validation logic exercises.
-/

namespace WebflowValidation

/-- ASCII model of the whitespace class used by JavaScript `String.trim`
and by the `\s` character class of the script's regex literals. -/
def isJsWs (c : Char) : Bool :=
  c = ' ' || c = '\t' || c = '\n' || c = '\r' ||
  c = Char.ofNat 11 || c = Char.ofNat 12 || c = Char.ofNat 160

/-- ASCII model of JavaScript `toLowerCase` on a single character:
uppercase letters `A`–`Z` are shifted to lowercase, others unchanged. -/
def jsLowerChar (c : Char) : Char :=
  if 65 ≤ c.toNat ∧ c.toNat ≤ 90 then Char.ofNat (c.toNat + 32) else c

/-- `toLowerCase` on a whole string. -/
def jsToLower (s : String) : String :=
  (s.toList.map jsLowerChar).asString

/-- JavaScript `String.trim`: drop whitespace from both ends. -/
def jsTrim (s : String) : String :=
  (((s.toList.dropWhile isJsWs).reverse.dropWhile isJsWs).reverse).asString

/-- A character kept by the `replace(/[^a-z0-9]/g, '')` step:
lowercase ASCII letter or ASCII digit. -/
def isKeyChar (c : Char) : Bool :=
  (97 ≤ c.toNat ∧ c.toNat ≤ 122) || (48 ≤ c.toNat ∧ c.toNat ≤ 57)

/-- `normalizeKey` from `src/validation.js` (lines 11–16):
`(str || '').toString().toLowerCase().replace(/[^a-z0-9]/g, '')`.
A `none` argument models a `null`/`undefined` raw attribute value
(falsy, hence replaced by `''`). -/
def normalizeKey (raw : Option String) : String :=
  (((raw.getD "").toList.map jsLowerChar).filter isKeyChar).asString

/-- A character surviving the `[^a-z0-9]` filter is already lowercase,
so lowercasing it again does nothing. -/
theorem jsLowerChar_of_isKeyChar {c : Char} (h : isKeyChar c = true) :
    jsLowerChar c = c := by
  unfold isKeyChar at h
  unfold jsLowerChar
  rw [if_neg]
  simp only [Bool.or_eq_true, decide_eq_true_eq] at h
  omega

/-- `jsLowerChar` maps no character into the kept class unless the result is
genuinely the lowercased form; what matters below: filtering after lowering is
idempotent because kept characters are fixed points of `jsLowerChar`. -/
theorem normalizeKey_chars (x : String) :
    ((normalizeKey (some x)).toList.all isKeyChar) = true := by
  unfold normalizeKey
  rw [List.toList_asString]
  simp [List.all_eq_true]

theorem normalizeKey_idem (x : String) :
    normalizeKey (some (normalizeKey (some x))) = normalizeKey (some x) := by
  unfold normalizeKey
  simp only [Option.getD_some]
  rw [List.toList_asString]
  congr 1
  have hall : ∀ c ∈ (x.toList.map jsLowerChar).filter isKeyChar, isKeyChar c = true := by
    intro c hc
    exact List.of_mem_filter hc
  rw [List.map_congr_left (fun c hc => jsLowerChar_of_isKeyChar (hall c hc)),
      List.map_id_fun']
  exact List.filter_eq_self.mpr hall

/-- C4: `normalizeKey` is idempotent; it produces only characters in
`[a-z0-9]` (everything else is lowercased or removed, so strings differing
only in case or separators normalize identically — e.g. the spec's three
spellings of "last name"); and `null` or empty input yields the empty
string. -/
theorem normalizeKey_spec :
    (∀ x : String, normalizeKey (some (normalizeKey (some x))) = normalizeKey (some x)) ∧
    (∀ x : String, ((normalizeKey (some x)).toList.all isKeyChar) = true) ∧
    (∀ x : String, normalizeKey (some x) = normalizeKey (some (jsToLower x))) ∧
    normalizeKey (some "Last-Name") = "lastname" ∧
    normalizeKey (some "last_name") = "lastname" ∧
    normalizeKey (some "LAST NAME") = "lastname" ∧
    normalizeKey none = "" ∧
    normalizeKey (some "") = "" := by
  refine ⟨normalizeKey_idem, normalizeKey_chars, ?_, by decide, by decide,
    by decide, rfl, rfl⟩
  intro x
  unfold normalizeKey jsToLower
  simp only [Option.getD_some]
  rw [List.toList_asString, List.map_map]
  congr 1
  congr 1
  apply List.map_congr_left
  intro c _
  show jsLowerChar c = jsLowerChar (jsLowerChar c)
  unfold jsLowerChar
  by_cases h : 65 ≤ c.toNat ∧ c.toNat ≤ 90
  · rw [if_pos h]
    have hv : (Char.ofNat (c.toNat + 32)).toNat = c.toNat + 32 := by
      have h32 : Nat.isValidChar (c.toNat + 32) := by
        left
        omega
      rw [Char.ofNat, dif_pos h32]
      rfl
    rw [if_neg (by rw [hv]; omega)]
  · rw [if_neg h, if_neg h]

/-- Validation failure codes of `validateField`: `'required' | 'format'`
(`reason: null` is modelled by `Option.none`). -/
inductive Reason where
  | required : Reason
  | format : Reason
deriving DecidableEq, Repr, Inhabited

/-- A verdict `{ valid: boolean, reason: 'required' | 'format' | null }`. -/
structure Verdict where
  valid : Bool
  reason : Option Reason
deriving DecidableEq, Repr, Inhabited

/-- A form control as `validateField` / the form controller observe it:
the element kind (`tagName`), the attributes the script reads
(`getAttribute` yielding `null` is `none`; an attribute present with an empty
value is `some ""`), the `hasAttribute` flags, and the live `value` /
`checked` properties. -/
structure Field where
  /-- `tagName.toLowerCase()`: `"input"`, `"textarea"` or `"select"`. -/
  tag : String
  /-- the `type` attribute. -/
  type : Option String
  /-- the `value` property (`field.value || ''`). -/
  value : String
  /-- the `checked` property. -/
  checked : Bool
  /-- `hasAttribute('required')`. -/
  required : Bool
  /-- `hasAttribute('data-business-email-only')`. -/
  businessEmailOnly : Bool
  /-- the `min` attribute. -/
  min : Option String
  /-- the `max` attribute. -/
  max : Option String
  /-- the `minlength` attribute. -/
  minlength : Option String
  /-- the `maxlength` attribute. -/
  maxlength : Option String
  /-- the `pattern` attribute. -/
  pattern : Option String
  /-- the `data-second-error` attribute. -/
  secondError : Option String
  /-- the `name` attribute. -/
  name : Option String
  /-- the `id` attribute. -/
  id : Option String
  /-- the `data-name` attribute. -/
  dataName : Option String
deriving DecidableEq, Repr, Inhabited

/-- `(field.getAttribute('type') || '').toLowerCase()` (line 97). -/
def fieldTypeAttr (f : Field) : String :=
  jsToLower (f.type.getD "")

/-- `(field.value || '').trim()` (line 99). -/
def fieldValue (f : Field) : String :=
  jsTrim f.value

/-- Requiredness (lines 101–106): native `required` attribute OR an
associated error element. -/
def isRequiredOf (f : Field) (errorEl : Bool) : Bool :=
  f.required || errorEl

/-- The phone regex `/^(?=.*\d)[0-9+]+$/` (line 130): non-empty, only
digits and `+`, and at least one digit. -/
def jsTelTest (s : String) : Bool :=
  !s.toList.isEmpty &&
  s.toList.all (fun c => c.isDigit || c = '+') &&
  s.toList.any (fun c => c.isDigit)

/-- The email regex `/^[^\s@]+@[^\s@]+\.[^\s@]+$/` (line 138).  The anchored
pattern matches exactly the strings of the form `a ++ "@" ++ b ++ "." ++ c`
with `a`, `b`, `c` non-empty and free of whitespace and `@`; equivalently:
no whitespace anywhere, exactly one `@`, a non-empty local part, and a `.`
strictly inside the part after the `@` (so that both the label before it and
the suffix after it are non-empty). -/
def jsEmailTest (s : String) : Bool :=
  (s.toList.count '@' = 1) &&
  s.toList.all (fun c => !isJsWs c) &&
  !(s.toList.takeWhile (fun c => c ≠ '@')).isEmpty &&
  ((((s.toList.dropWhile (fun c => c ≠ '@')).drop 1).drop 1).dropLast.contains '.')

/-- `value.slice(value.lastIndexOf('@') + 1).toLowerCase()` (lines 145–149):
the characters after the last `@`, lowercased. -/
def emailDomain (s : String) : String :=
  jsToLower ((s.toList.reverse.takeWhile (fun c => c ≠ '@')).reverse.asString)

/-- The deny-list of free/consumer providers (lines 151–171). -/
def freeDomains : List String :=
  ["gmail.com", "googlemail.com", "yahoo.com", "yahoo.co.uk",
   "hotmail.com", "outlook.com", "outlook.co.uk", "live.com", "msn.com",
   "icloud.com", "me.com", "mac.com", "aol.com", "protonmail.com",
   "pm.me", "yandex.com", "gmx.com", "mail.com", "zoho.com"]

/-- Core of the url regex without the protocol prefix: `[^\s.]+\.[^\s]{2,}`
anchored.  The label before the first `.` must be non-empty and free of
whitespace (it contains no `.` by construction); the suffix after that `.`
must have at least two characters and no whitespace (it may contain dots,
covering a match at any later dot). -/
def urlCore (cs : List Char) : Bool :=
  match cs.dropWhile (fun c => c ≠ '.') with
  | '.' :: b =>
      !(cs.takeWhile (fun c => c ≠ '.')).isEmpty &&
      (cs.takeWhile (fun c => c ≠ '.')).all (fun c => !isJsWs c) &&
      b.length ≥ 2 && b.all (fun c => !isJsWs c)
  | _ => false

/-- The url regex `/^(https?:\/\/)?[^\s.]+\.[^\s]{2,}$/i` (line 180):
an optional case-insensitive `http://` or `https://` prefix, then `urlCore`. -/
def jsUrlTest (s : String) : Bool :=
  ((s.toList.take 7).map jsLowerChar = "http://".toList && urlCore (s.toList.drop 7)) ||
  ((s.toList.take 8).map jsLowerChar = "https://".toList && urlCore (s.toList.drop 8)) ||
  urlCore s.toList

/-- Digit run to a natural number. -/
def digitsToNat (cs : List Char) : Nat :=
  cs.foldl (fun a c => a * 10 + (c.toNat - 48)) 0

/-- Model of JavaScript `Number(string)` on the decimal fragment the script
exercises: surrounding whitespace ignored, `''` is `0`, an optional sign,
then digits with an optional fractional part (`"1."` and `".5"` included).
`none` models `NaN`; inputs outside this fragment (exponents, hex,
`Infinity`) are also mapped to `none`, which the callers below treat exactly
as they treat `NaN`. -/
def jsNumber (s : String) : Option ℚ :=
  match (jsTrim s).toList with
  | [] => some 0
  | c :: cs =>
    let body : List Char := if c = '+' ∨ c = '-' then cs else c :: cs
    let sgn : Int := if c = '-' then -1 else 1
    let intPart := body.takeWhile Char.isDigit
    let rest := body.dropWhile Char.isDigit
    match rest with
    | [] => if intPart.isEmpty then none else some (mkRat (sgn * digitsToNat intPart) 1)
    | '.' :: fr =>
      if (fr.dropWhile Char.isDigit).isEmpty then
        if intPart.isEmpty ∧ fr.isEmpty then none
        else some (mkRat (sgn * (digitsToNat intPart * 10 ^ (fr.takeWhile Char.isDigit).length +
          digitsToNat (fr.takeWhile Char.isDigit))) (10 ^ (fr.takeWhile Char.isDigit).length))
      else none
    | _ => none

/-- `minAttr !== null && num < Number(minAttr)` (line 196): a declared
minimum that parses to `NaN` makes the comparison false, i.e. no constraint. -/
def numBelowMin (minAttr : Option String) (num : ℚ) : Bool :=
  match minAttr with
  | none => false
  | some a => match jsNumber a with
    | none => false
    | some m => decide (num < m)

/-- `maxAttr !== null && num > Number(maxAttr)` (line 199). -/
def numAboveMax (maxAttr : Option String) (num : ℚ) : Bool :=
  match maxAttr with
  | none => false
  | some a => match jsNumber a with
    | none => false
    | some m => decide (num > m)

/-- `minLengthAttr !== null && value.length < Number(minLengthAttr)` (line 207). -/
def lenBelowMin (attr : Option String) (value : String) : Bool :=
  match attr with
  | none => false
  | some a => match jsNumber a with
    | none => false
    | some m => decide ((mkRat value.toList.length 1) < m)

/-- `maxLengthAttr !== null && value.length > Number(maxLengthAttr)` (line 211). -/
def lenAboveMax (attr : Option String) (value : String) : Bool :=
  match attr with
  | none => false
  | some a => match jsNumber a with
    | none => false
    | some m => decide ((mkRat value.toList.length 1) > m)

/-- The three Perl character classes the parser supports (`\\d`, `\\w`,
`\\s` and their negations). -/
inductive PerlKind where
  | digit : PerlKind
  | word : PerlKind
  | space : PerlKind
deriving DecidableEq, Repr

/-- One entry of a bracket character class `[...]`: a literal character, a
code-point range, or a (possibly negated) Perl class. -/
inductive ClsItem where
  | ch (c : Char) : ClsItem
  | range (lo hi : Char) : ClsItem
  | perl (negp : Bool) (k : PerlKind) : ClsItem
deriving DecidableEq, Repr

/-- Abstract syntax of the regex fragment modelled for the `pattern`
attribute: the empty word, single characters, `.`, bracket classes (also
encoding the `\\d`/`\\w`/`\\s` family), concatenation, alternation `|` and
Kleene star (brace quantifiers are expanded into these).  `fail` matches
nothing (it arises as a derivative). -/
inductive Regex where
  | fail : Regex
  | eps : Regex
  | char (c : Char) : Regex
  | dot : Regex
  | cls (neg : Bool) (items : List ClsItem) : Regex
  | cat (r₁ r₂ : Regex) : Regex
  | alt (r₁ r₂ : Regex) : Regex
  | star (r : Regex) : Regex
deriving DecidableEq, Repr, Inhabited

/-- `\\d` = `[0-9]`, `\\w` = `[A-Za-z0-9_]`, `\\s` = the whitespace class
(shared with the model of JS `\\s` used by the email regex). -/
def perlMatches : PerlKind → Char → Bool
  | .digit, c => c.isDigit
  | .word, c => c.isAlphanum || c = '_'
  | .space, c => isJsWs c

def clsItemMatches (it : ClsItem) (c : Char) : Bool :=
  match it with
  | .ch a => c = a
  | .range lo hi => lo ≤ c && c ≤ hi
  | .perl negp k => perlMatches k c != negp

/-- A bracket class matches a character when some item matches it, inverted
for a leading `^` (so `[^]` matches every character). -/
def clsMatches (neg : Bool) (items : List ClsItem) (c : Char) : Bool :=
  (items.any (fun it => clsItemMatches it c)) != neg

/-- Does the regex accept the empty word? -/
def Regex.nullable : Regex → Bool
  | .fail => false
  | .eps => true
  | .char _ => false
  | .dot => false
  | .cls _ _ => false
  | .cat r₁ r₂ => r₁.nullable && r₂.nullable
  | .alt r₁ r₂ => r₁.nullable || r₂.nullable
  | .star _ => true

/-- Brzozowski derivative.  JavaScript `.` matches any character except a
line terminator. -/
def Regex.deriv : Regex → Char → Regex
  | .fail, _ => .fail
  | .eps, _ => .fail
  | .char c, a => if a = c then .eps else .fail
  | .dot, a =>
      if a = '\n' ∨ a = '\r' ∨ a = Char.ofNat 0x2028 ∨ a = Char.ofNat 0x2029
      then .fail else .eps
  | .cls neg items, a => if clsMatches neg items a then .eps else .fail
  | .cat r₁ r₂, a =>
      if r₁.nullable then .alt (.cat (r₁.deriv a) r₂) (r₂.deriv a)
      else .cat (r₁.deriv a) r₂
  | .alt r₁ r₂, a => .alt (r₁.deriv a) (r₂.deriv a)
  | .star r, a => .cat (r.deriv a) (.star r)

/-- Exact match of a whole character list. -/
def rmatch (r : Regex) (cs : List Char) : Bool :=
  (cs.foldl Regex.deriv r).nullable

/-- Does some (possibly empty) initial segment of `cs` match `r`? -/
def matchesAtStart (r : Regex) : List Char → Bool
  | [] => r.nullable
  | c :: cs => r.nullable || matchesAtStart (r.deriv c) cs

/-- `RegExp.prototype.test` semantics for an unanchored pattern: a match may
start at any position of the string. -/
def rtest (r : Regex) : List Char → Bool
  | [] => r.nullable
  | c :: cs => matchesAtStart r (c :: cs) || rtest r cs

/-- Outcome of modelling `new RegExp(p)`:
`ok r` — the pattern compiles and `r` captures its `test` semantics;
`jsError` — the pattern raises a `SyntaxError` (every pattern mapped here is
genuinely rejected by JavaScript: unmatched `(` or `)`, a dangling
quantifier, an unterminated class, an out-of-order class range or brace
quantifier, a bad `(?` group, a trailing backslash);
`unsupported` — the pattern contains a construct outside the modelled
fragment (anchors, `\\b`, look-around, backreferences, `\\u`/`\\x`/octal
escapes, non-quantifier braces, bare `]`/`}`), about which the model makes
no claim.  No theorem below quantifies over `unsupported` patterns. -/
inductive PRes (α : Type) where
  | ok (a : α) : PRes α
  | jsError : PRes α
  | unsupported : PRes α
deriving DecidableEq, Repr

/-- One class atom: a literal (possibly escaped) character or a Perl class.
Escaped letters without a modelled meaning (`\\u`, `\\x`, `\\c`, octal, ...)
are `unsupported`; a backslash ending the pattern is a `SyntaxError`. -/
def parseClsAtom : List Char → PRes (ClsItem × List Char)
  | [] => .jsError
  | '\\' :: [] => .jsError
  | '\\' :: e :: rest =>
    if e = 'd' then .ok (.perl false .digit, rest)
    else if e = 'D' then .ok (.perl true .digit, rest)
    else if e = 'w' then .ok (.perl false .word, rest)
    else if e = 'W' then .ok (.perl true .word, rest)
    else if e = 's' then .ok (.perl false .space, rest)
    else if e = 'S' then .ok (.perl true .space, rest)
    else if e = 'n' then .ok (.ch '\n', rest)
    else if e = 'r' then .ok (.ch '\r', rest)
    else if e = 't' then .ok (.ch '\t', rest)
    else if e = 'f' then .ok (.ch (Char.ofNat 12), rest)
    else if e = 'v' then .ok (.ch (Char.ofNat 11), rest)
    else if e = 'b' then .ok (.ch (Char.ofNat 8), rest)
    else if e.isAlphanum then .unsupported
    else .ok (.ch e, rest)
  | c :: rest => .ok (.ch c, rest)

/-- A range `a-b` needs two literal bounds in order (`[z-a]` is a JS
`SyntaxError`); when a bound is a Perl class the `-` is a literal, as in
JS's web grammar (`[\\d-x]` means `\\d`, `-` or `x`). -/
def clsRangeOf (a b : ClsItem) : PRes (List ClsItem) :=
  match a, b with
  | .ch la, .ch lb => if lb < la then .jsError else .ok [.range la lb]
  | _, _ => .ok [a, .ch '-', b]

/-- The items of a bracket class, after `[` (and an optional `^`), up to the
closing `]`; running out of input is JS's unterminated-class `SyntaxError`.
`]` directly after `[`/`[^` closes an empty class, as in JS. -/
def parseCls (fuel : Nat) (cs : List Char) : PRes (List ClsItem × List Char) :=
  match fuel with
  | 0 => .unsupported
  | fuel + 1 =>
    match cs with
    | [] => .jsError
    | ']' :: rest => .ok ([], rest)
    | _ =>
      match parseClsAtom cs with
      | .ok (a, rest) =>
        match rest with
        | '-' :: ']' :: rest₂ => .ok ([a, .ch '-'], rest₂)
        | '-' :: rest₂ =>
          match parseClsAtom rest₂ with
          | .ok (b, rest₃) =>
            match clsRangeOf a b with
            | .ok items =>
              match parseCls fuel rest₃ with
              | .ok (more, rest₄) => .ok (items ++ more, rest₄)
              | .jsError => .jsError
              | .unsupported => .unsupported
            | .jsError => .jsError
            | .unsupported => .unsupported
          | .jsError => .jsError
          | .unsupported => .unsupported
        | _ =>
          match parseCls fuel rest with
          | .ok (more, rest₂) => .ok (a :: more, rest₂)
          | .jsError => .jsError
          | .unsupported => .unsupported
      | .jsError => .jsError
      | .unsupported => .unsupported

/-- A syntactically complete brace quantifier `{m}`, `{m,}` or `{m,n}`;
`none` when the braces do not form one (JS then treats `{` as a literal —
the parser files that case under `unsupported` via the atom rules). -/
def parseBraceQuant (cs : List Char) : Option (Nat × Option Nat × List Char) :=
  match cs.takeWhile Char.isDigit with
  | [] => none
  | ds =>
    match cs.dropWhile Char.isDigit with
    | '}' :: rest => some (digitsToNat ds, some (digitsToNat ds), rest)
    | ',' :: rest₂ =>
      match rest₂.dropWhile Char.isDigit with
      | '}' :: rest₃ =>
        some (digitsToNat ds,
          (if (rest₂.takeWhile Char.isDigit).isEmpty then none
           else some (digitsToNat (rest₂.takeWhile Char.isDigit))), rest₃)
      | _ => none
    | _ => none

/-- `r` repeated exactly `k` times. -/
def repPow (r : Regex) : Nat → Regex
  | 0 => .eps
  | k + 1 => .cat r (repPow r k)

/-- `r` repeated at most `k` times. -/
def repOpt (r : Regex) : Nat → Regex
  | 0 => .eps
  | k + 1 => .cat (.alt r .eps) (repOpt r k)

/-- Expansion of a brace quantifier (laziness is irrelevant for `test`):
`r{m}` and `r{m,n}` via powers and options, `r{m,}` via a trailing star. -/
def repExpand (r : Regex) (m : Nat) (n : Option Nat) : Regex :=
  match n with
  | none => .cat (repPow r m) (.star r)
  | some n => .cat (repPow r m) (repOpt r (n - m))

/-- Optional lazy marker `?` after a quantifier. -/
def consumeLazy (r : Regex) (rest : List Char) : PRes (Regex × List Char) :=
  match rest with
  | '?' :: rest₂ => .ok (r, rest₂)
  | _ => .ok (r, rest)

mutual

/-- Parser for the modelled regex fragment, mirroring `new RegExp(...)`:
literals, `.`, bracket classes, the `\\d`/`\\w`/`\\s` escape family, control
escapes, identity escapes of punctuation, plain and `(?:` groups, `|`, the
quantifiers `*` `+` `?` `{m}` `{m,}` `{m,n}` (each with an optional lazy
`?`).  Outcomes are classified by `PRes`: every `jsError` is a genuine JS
`SyntaxError`, every `ok` carries the pattern's `test` semantics, and
everything else is `unsupported`.  The first argument is fuel. -/
def parseAtom : Nat → List Char → PRes (Regex × List Char)
  | 0, _ => .unsupported
  | fuel + 1, cs =>
    match cs with
    | '(' :: '?' :: ':' :: rest =>
      match parseAlt fuel rest with
      | .ok (r, ')' :: rest₂) => .ok (r, rest₂)
      | .ok (_, _) => .jsError
      | .jsError => .jsError
      | .unsupported => .unsupported
    | '(' :: '?' :: e :: _ =>
      if e = '=' ∨ e = '!' ∨ e = '<' then .unsupported else .jsError
    | '(' :: '?' :: [] => .jsError
    | '(' :: rest =>
      match parseAlt fuel rest with
      | .ok (r, ')' :: rest₂) => .ok (r, rest₂)
      | .ok (_, _) => .jsError
      | .jsError => .jsError
      | .unsupported => .unsupported
    | '.' :: rest => .ok (.dot, rest)
    | '[' :: '^' :: rest =>
      match parseCls fuel rest with
      | .ok (items, rest₂) => .ok (.cls true items, rest₂)
      | .jsError => .jsError
      | .unsupported => .unsupported
    | '[' :: rest =>
      match parseCls fuel rest with
      | .ok (items, rest₂) => .ok (.cls false items, rest₂)
      | .jsError => .jsError
      | .unsupported => .unsupported
    | '\\' :: [] => .jsError
    | '\\' :: e :: rest =>
      if e = 'd' then .ok (.cls false [.perl false .digit], rest)
      else if e = 'D' then .ok (.cls false [.perl true .digit], rest)
      else if e = 'w' then .ok (.cls false [.perl false .word], rest)
      else if e = 'W' then .ok (.cls false [.perl true .word], rest)
      else if e = 's' then .ok (.cls false [.perl false .space], rest)
      else if e = 'S' then .ok (.cls false [.perl true .space], rest)
      else if e = 'n' then .ok (.char '\n', rest)
      else if e = 'r' then .ok (.char '\r', rest)
      else if e = 't' then .ok (.char '\t', rest)
      else if e = 'f' then .ok (.char (Char.ofNat 12), rest)
      else if e = 'v' then .ok (.char (Char.ofNat 11), rest)
      else if e.isAlphanum then .unsupported
      else .ok (.char e, rest)
    | c :: rest =>
      if c = ')' ∨ c = '|' ∨ c = '*' ∨ c = '+' ∨ c = '?' then .jsError
      else if c = '{' ∨ c = '}' ∨ c = ']' ∨ c = '^' ∨ c = '$' then .unsupported
      else .ok (.char c, rest)
    | [] => .jsError

/-- One atom with an optional quantifier; an out-of-order brace quantifier
(`a{3,2}`) is a JS `SyntaxError`, incomplete braces fall back to the
atom rules. -/
def parseRepeat (fuel : Nat) (cs : List Char) : PRes (Regex × List Char) :=
  match fuel with
  | 0 => .unsupported
  | fuel + 1 =>
    match parseAtom fuel cs with
    | .ok (r, rest) =>
      match rest with
      | '*' :: '?' :: rest₂ => .ok (.star r, rest₂)
      | '*' :: rest₂ => .ok (.star r, rest₂)
      | '+' :: '?' :: rest₂ => .ok (.cat r (.star r), rest₂)
      | '+' :: rest₂ => .ok (.cat r (.star r), rest₂)
      | '?' :: '?' :: rest₂ => .ok (.alt r .eps, rest₂)
      | '?' :: rest₂ => .ok (.alt r .eps, rest₂)
      | '{' :: rest₂ =>
        match parseBraceQuant rest₂ with
        | some (m, some n, rest₃) =>
          if n < m then .jsError else consumeLazy (repExpand r m (some n)) rest₃
        | some (m, none, rest₃) => consumeLazy (repExpand r m none) rest₃
        | none => .ok (r, rest)
      | _ => .ok (r, rest)
    | .jsError => .jsError
    | .unsupported => .unsupported

/-- A (possibly empty) concatenation of repeats, up to `)`/`|`/end. -/
def parseCat (fuel : Nat) (cs : List Char) : PRes (Regex × List Char) :=
  match fuel with
  | 0 => .unsupported
  | fuel + 1 =>
    match cs with
    | [] => .ok (.eps, [])
    | ')' :: _ => .ok (.eps, cs)
    | '|' :: _ => .ok (.eps, cs)
    | _ =>
      match parseRepeat fuel cs with
      | .ok (r, rest) =>
        match parseCat fuel rest with
        | .ok (r₂, rest₂) => .ok (.cat r r₂, rest₂)
        | .jsError => .jsError
        | .unsupported => .unsupported
      | .jsError => .jsError
      | .unsupported => .unsupported

/-- Alternation: `cat ('|' alt)?`. -/
def parseAlt (fuel : Nat) (cs : List Char) : PRes (Regex × List Char) :=
  match fuel with
  | 0 => .unsupported
  | fuel + 1 =>
    match parseCat fuel cs with
    | .ok (r, rest) =>
      match rest with
      | '|' :: rest₂ =>
        match parseAlt fuel rest₂ with
        | .ok (r₂, rest₃) => .ok (.alt r r₂, rest₃)
        | .jsError => .jsError
        | .unsupported => .unsupported
      | _ => .ok (r, rest)
    | .jsError => .jsError
    | .unsupported => .unsupported

end

/-- `new RegExp(patternAttr)` (line 219): `ok` on success, `jsError` for a
genuine `SyntaxError` (leftover input can only be an unmatched `)`),
`unsupported` for a pattern outside the modelled fragment. -/
def parseRegex (p : String) : PRes Regex :=
  match parseAlt (8 * p.toList.length + 8) p.toList with
  | .ok (r, []) => .ok r
  | .ok (_, _ :: _) => .jsError
  | .jsError => .jsError
  | .unsupported => .unsupported

/-- The pattern step (lines 216–226): run only when the attribute is present
and truthy; a pattern whose compilation raises is ignored (`try`/`catch`);
otherwise the constraint passes exactly when `re.test(value)` does.  The
`unsupported` arm is a modelling stub (the real program runs `re.test` with
the pattern's full JS semantics there); no theorem in this file constrains
`checkPattern` on such patterns. -/
def checkPattern (patternAttr : Option String) (value : String) : Bool :=
  match patternAttr with
  | none => true
  | some p =>
    if p = "" then true
    else
      match parseRegex p with
      | .ok r => rtest r value.toList
      | .jsError => true
      | .unsupported => true

/-- `validateField(field, errorEl)` (lines 96–229).  The second argument is
the truthiness of `errorEl` — the only thing `validateField` reads from it
(line 106).  The sequence of early `return`s of the source is flattened into
an `else if` chain; each guard is the source condition of the corresponding
`return`, and the number branch keeps its internal empty-value sub-case
(line 188) even though the earlier branches make it unreachable. -/
def validateField (f : Field) (errorEl : Bool) : Verdict :=
  if fieldTypeAttr f = "checkbox" ∨ fieldTypeAttr f = "radio" then
    if isRequiredOf f errorEl = false then ⟨true, none⟩
    else if f.checked then ⟨true, none⟩
    else ⟨false, some .required⟩
  else if fieldValue f = "" ∧ isRequiredOf f errorEl = false then ⟨true, none⟩
  else if isRequiredOf f errorEl = true ∧ fieldValue f = "" then ⟨false, some .required⟩
  else if fieldTypeAttr f = "tel" ∧ jsTelTest (fieldValue f) = false then
    ⟨false, some .format⟩
  else if fieldTypeAttr f = "email" ∧ jsEmailTest (fieldValue f) = false then
    ⟨false, some .format⟩
  else if fieldTypeAttr f = "email" ∧ f.businessEmailOnly = true ∧
          (fieldValue f).toList.contains '@' = false then
    ⟨false, some .format⟩
  else if fieldTypeAttr f = "email" ∧ f.businessEmailOnly = true ∧
          freeDomains.contains (emailDomain (fieldValue f)) = true then
    ⟨false, some .format⟩
  else if fieldTypeAttr f = "url" ∧ jsUrlTest (fieldValue f) = false then
    ⟨false, some .format⟩
  else if fieldTypeAttr f = "number" ∧ fieldValue f = "" then
    ⟨!isRequiredOf f errorEl, none⟩
  else if fieldTypeAttr f = "number" ∧ jsNumber (fieldValue f) = none then
    ⟨false, some .format⟩
  else if fieldTypeAttr f = "number" ∧
          numBelowMin f.min ((jsNumber (fieldValue f)).getD 0) = true then
    ⟨false, some .format⟩
  else if fieldTypeAttr f = "number" ∧
          numAboveMax f.max ((jsNumber (fieldValue f)).getD 0) = true then
    ⟨false, some .format⟩
  else if lenBelowMin f.minlength (fieldValue f) = true then ⟨false, some .format⟩
  else if lenAboveMax f.maxlength (fieldValue f) = true then ⟨false, some .format⟩
  else if checkPattern f.pattern (fieldValue f) = false then ⟨false, some .format⟩
  else ⟨true, none⟩

/-- A plain text input with the given value and no constraint attributes. -/
def textField (v : String) : Field :=
  { tag := "input", type := some "text", value := v, checked := false,
    required := false, businessEmailOnly := false, min := none, max := none,
    minlength := none, maxlength := none, pattern := none, secondError := none,
    name := none, id := none, dataName := none }

/-- An email input with the given value; `biz` sets the business-only flag. -/
def emailField (v : String) (biz : Bool) : Field :=
  { textField v with type := some "email", businessEmailOnly := biz }

example : validateField (textField "") false = ⟨true, none⟩ := by decide
example : validateField (textField "") true = ⟨false, some .required⟩ := by decide
example : validateField (emailField "a@b.com" false) false = ⟨true, none⟩ := by decide
example : validateField (emailField "x@gmail.com" true) false = ⟨false, some .format⟩ := by decide
example : validateField (emailField "x@acme.io" true) false = ⟨true, none⟩ := by decide
example : validateField { textField "12a" with type := some "tel" } false = ⟨false, some .format⟩ := by decide
example : validateField { textField "+1234" with type := some "tel" } false = ⟨true, none⟩ := by decide
example : validateField { textField "3" with type := some "number", min := some "5" } false = ⟨false, some .format⟩ := by decide
example : validateField { textField "5" with type := some "number", min := some "5" } false = ⟨true, none⟩ := by decide
example : validateField { textField "abc" with pattern := some "b" } false = ⟨true, none⟩ := by decide
example : validateField { textField "xyz" with pattern := some "b" } false = ⟨false, some .format⟩ := by decide
example : validateField { textField "xyz" with pattern := some "(" } false = ⟨true, none⟩ := by decide
example : validateField { textField "abc" with pattern := some "[0-9]" } false = ⟨false, some .format⟩ := by decide
example : validateField { textField "a7c" with pattern := some "[0-9]" } false = ⟨true, none⟩ := by decide
example : validateField { textField "ab" with pattern := some "\\d\\d" } false = ⟨false, some .format⟩ := by decide
example : validateField { textField "a42b" with pattern := some "\\d\\d" } false = ⟨true, none⟩ := by decide
example : validateField { textField "xy" with pattern := some "x{2,3}" } false = ⟨false, some .format⟩ := by decide
example : validateField { textField "wxxy" with pattern := some "x{2,3}" } false = ⟨true, none⟩ := by decide
example : parseRegex "a{3,2}" = .jsError := by decide
example : parseRegex "[z-a]" = .jsError := by decide
example : parseRegex "[abc" = .jsError := by decide
example : parseRegex "*a" = .jsError := by decide
example : parseRegex "a)" = .jsError := by decide
example : parseRegex "(?a)" = .jsError := by decide
example : parseRegex "^[a-z]+$" = .unsupported := by decide
example : parseRegex "(?=x)y" = .unsupported := by decide
example : parseRegex "[^0-9]" = .ok (.cat (.cls true [.range '0' '9']) .eps) := by decide
example : rtest (.cls true [.range '0' '9']) "7".toList = false ∧ rtest (.cls true [.range '0' '9']) "7a".toList = true := by decide

/-- Every verdict of `validateField` is one of the three shapes visible in
the source's `return` statements; the internal empty-value sub-case of the
number branch (which would return `{valid:false, reason:null}` for a
required field) is unreachable because the two early empty-value returns
fire first. -/
theorem validateField_cases (f : Field) (e : Bool) :
    validateField f e = ⟨true, none⟩ ∨
    validateField f e = ⟨false, some .required⟩ ∨
    validateField f e = ⟨false, some .format⟩ := by
  by_cases hcb : fieldTypeAttr f = "checkbox" ∨ fieldTypeAttr f = "radio"
  · unfold validateField
    rw [if_pos hcb]
    split
    · exact Or.inl rfl
    split
    · exact Or.inl rfl
    · exact Or.inr (Or.inl rfl)
  by_cases hv : fieldValue f = ""
  · by_cases hreq : isRequiredOf f e = false
    · unfold validateField
      rw [if_neg hcb, if_pos ⟨hv, hreq⟩]
      exact Or.inl rfl
    · unfold validateField
      rw [if_neg hcb, if_neg (fun h => hreq h.2),
          if_pos ⟨eq_true_of_ne_false hreq, hv⟩]
      exact Or.inr (Or.inl rfl)
  · unfold validateField
    rw [if_neg hcb, if_neg (fun h => hv h.1), if_neg (fun h => hv h.2)]
    by_cases h₁ : fieldTypeAttr f = "tel" ∧ jsTelTest (fieldValue f) = false
    · rw [if_pos h₁]; exact Or.inr (Or.inr rfl)
    rw [if_neg h₁]
    by_cases h₂ : fieldTypeAttr f = "email" ∧ jsEmailTest (fieldValue f) = false
    · rw [if_pos h₂]; exact Or.inr (Or.inr rfl)
    rw [if_neg h₂]
    by_cases h₃ : fieldTypeAttr f = "email" ∧ f.businessEmailOnly = true ∧
        (fieldValue f).toList.contains '@' = false
    · rw [if_pos h₃]; exact Or.inr (Or.inr rfl)
    rw [if_neg h₃]
    by_cases h₄ : fieldTypeAttr f = "email" ∧ f.businessEmailOnly = true ∧
        freeDomains.contains (emailDomain (fieldValue f)) = true
    · rw [if_pos h₄]; exact Or.inr (Or.inr rfl)
    rw [if_neg h₄]
    by_cases h₅ : fieldTypeAttr f = "url" ∧ jsUrlTest (fieldValue f) = false
    · rw [if_pos h₅]; exact Or.inr (Or.inr rfl)
    rw [if_neg h₅, if_neg (fun h => hv h.2)]
    by_cases h₆ : fieldTypeAttr f = "number" ∧ jsNumber (fieldValue f) = none
    · rw [if_pos h₆]; exact Or.inr (Or.inr rfl)
    rw [if_neg h₆]
    by_cases h₇ : fieldTypeAttr f = "number" ∧
        numBelowMin f.min ((jsNumber (fieldValue f)).getD 0) = true
    · rw [if_pos h₇]; exact Or.inr (Or.inr rfl)
    rw [if_neg h₇]
    by_cases h₈ : fieldTypeAttr f = "number" ∧
        numAboveMax f.max ((jsNumber (fieldValue f)).getD 0) = true
    · rw [if_pos h₈]; exact Or.inr (Or.inr rfl)
    rw [if_neg h₈]
    by_cases h₉ : lenBelowMin f.minlength (fieldValue f) = true
    · rw [if_pos h₉]; exact Or.inr (Or.inr rfl)
    rw [if_neg h₉]
    by_cases h₁₀ : lenAboveMax f.maxlength (fieldValue f) = true
    · rw [if_pos h₁₀]; exact Or.inr (Or.inr rfl)
    rw [if_neg h₁₀]
    by_cases h₁₁ : checkPattern f.pattern (fieldValue f) = false
    · rw [if_pos h₁₁]; exact Or.inr (Or.inr rfl)
    rw [if_neg h₁₁]
    exact Or.inl rfl

/-- Helper: with an `email` type attribute, a non-empty trimmed value and a
failing shape test, the email-format branch (or nothing before it) decides. -/
theorem validateField_email_shape (f : Field) (e : Bool)
    (hty : fieldTypeAttr f = "email") (hv : fieldValue f ≠ "")
    (ht : jsEmailTest (fieldValue f) = false) :
    validateField f e = ⟨false, some .format⟩ := by
  unfold validateField
  rw [if_neg (by rw [hty]; decide)]
  rw [if_neg (by rintro ⟨h, _⟩; exact hv h)]
  rw [if_neg (by rintro ⟨_, h⟩; exact hv h)]
  rw [if_neg (by rintro ⟨h, _⟩; rw [hty] at h; exact absurd h (by decide))]
  rw [if_pos ⟨hty, ht⟩]

/-- C1: `validateField` treats a field as required exactly when it carries a
native `required` attribute or a matching error slot exists (`isRequiredOf`
is the requiredness the source computes in lines 104–106); a checkbox/radio
field's verdict is governed by that requiredness and `checked`, and any
other (generic) field whose value trims to the empty string yields
`{valid: false, reason: required}` precisely when it is so required, and
`{valid: true, reason: null}` otherwise. -/
theorem validateField_requiredness :
    (∀ f e, isRequiredOf f e = (f.required || e)) ∧
    (∀ f e, (fieldTypeAttr f = "checkbox" ∨ fieldTypeAttr f = "radio") →
      validateField f e = if isRequiredOf f e then
        (if f.checked then ⟨true, none⟩ else ⟨false, some .required⟩)
        else ⟨true, none⟩) ∧
    (∀ f e, ¬(fieldTypeAttr f = "checkbox" ∨ fieldTypeAttr f = "radio") →
      fieldValue f = "" →
      validateField f e = if isRequiredOf f e then ⟨false, some .required⟩
        else ⟨true, none⟩) := by
  refine ⟨fun f e => rfl, fun f e h => ?_, fun f e h hv => ?_⟩
  · unfold validateField
    rw [if_pos h]
    cases hr : isRequiredOf f e <;> cases hc : f.checked <;> simp [hr, hc]
  · unfold validateField
    rw [if_neg h]
    cases hr : isRequiredOf f e
    · rw [if_pos ⟨hv, rfl⟩]; simp
    · rw [if_neg (by rintro ⟨_, hh⟩; exact Bool.noConfusion hh), if_pos ⟨rfl, hv⟩]
      simp

/-- Witness for `validateField_requiredness`: a required-empty text field is
rejected with `required`, an unrequired one accepted, and an unchecked
required checkbox rejected with `required`. -/
theorem validateField_requiredness_witness :
    validateField (textField "") true = ⟨false, some .required⟩ ∧
    validateField (textField "") false = ⟨true, none⟩ ∧
    validateField { textField "" with type := some "checkbox" } true =
      ⟨false, some .required⟩ := by
  refine ⟨?_, ?_, ?_⟩
  · rw [validateField_requiredness.2.2 (textField "") true (by decide) (by decide)]
    decide
  · rw [validateField_requiredness.2.2 (textField "") false (by decide) (by decide)]
    decide
  · rw [validateField_requiredness.2.1 { textField "" with type := some "checkbox" }
      true (by decide)]
    decide

/-- C10: every verdict of `validateField` satisfies `valid = true` iff
`reason = null`, and an invalid verdict carries reason `required` or
`format` — no other verdict shape is produced. -/
theorem validateField_verdict_invariant (f : Field) (e : Bool) :
    ((validateField f e).valid = true ↔ (validateField f e).reason = none) ∧
    ((validateField f e).valid = false →
      (validateField f e).reason = some .required ∨
      (validateField f e).reason = some .format) := by
  rcases validateField_cases f e with h | h | h <;> rw [h] <;> simp

/-- Witness for `validateField_verdict_invariant`: a required-empty field's
invalid verdict carries one of the two reason codes. -/
theorem validateField_verdict_invariant_witness :
    (validateField (textField "") true).reason = some .required ∨
    (validateField (textField "") true).reason = some .format :=
  (validateField_verdict_invariant (textField "") true).2 (by decide)

/-- C7: an email field with a non-empty trimmed value failing the
`local@domain.tld` shape test is rejected with `format`; with the
business-only flag, a value whose domain after the last `@` is on the
deny-list is rejected with `format`; and the spec's three concrete examples
behave as stated. -/
theorem validateField_email :
    (∀ f e, fieldTypeAttr f = "email" → fieldValue f ≠ "" →
      jsEmailTest (fieldValue f) = false →
      validateField f e = ⟨false, some .format⟩) ∧
    (∀ f e, fieldTypeAttr f = "email" → f.businessEmailOnly = true →
      fieldValue f ≠ "" →
      freeDomains.contains (emailDomain (fieldValue f)) = true →
      validateField f e = ⟨false, some .format⟩) ∧
    validateField (emailField "a@b.com" false) false = ⟨true, none⟩ ∧
    validateField (emailField "x@gmail.com" true) false = ⟨false, some .format⟩ ∧
    validateField (emailField "x@acme.io" true) false = ⟨true, none⟩ := by
  refine ⟨validateField_email_shape, fun f e hty hbiz hv hdom => ?_,
    by decide, by decide, by decide⟩
  by_cases ht : jsEmailTest (fieldValue f) = false
  · exact validateField_email_shape f e hty hv ht
  unfold validateField
  rw [if_neg (by rw [hty]; decide)]
  rw [if_neg (by rintro ⟨h, _⟩; exact hv h)]
  rw [if_neg (by rintro ⟨_, h⟩; exact hv h)]
  rw [if_neg (by rintro ⟨h, _⟩; rw [hty] at h; exact absurd h (by decide))]
  rw [if_neg (by rintro ⟨_, h⟩; exact ht h)]
  by_cases hat : (fieldValue f).toList.contains '@' = false
  · rw [if_pos ⟨hty, hbiz, hat⟩]
  · rw [if_neg (by rintro ⟨_, _, h⟩; exact hat h), if_pos ⟨hty, hbiz, hdom⟩]

/-- Witness for `validateField_email`: instantiation at the spec's concrete
deny-list example. -/
theorem validateField_email_witness :
    validateField (emailField "x@gmail.com" true) false = ⟨false, some .format⟩ :=
  validateField_email.2.1 (emailField "x@gmail.com" true) false
    (by decide) (by decide) (by decide) (by decide)

/-- C8 counterexample: the source applies `re.test(value)` (line 220), which
searches for a match anywhere in the value — it does not require the value
to fully match the pattern.  For the field with `pattern="b"` and value
`"abc"` the pattern parses to the literal `b`, the value does *not* fully
match it, yet `validateField` accepts the value, contradicting the claim
that a value not fully matching a declared pattern yields
`{valid: false, reason: format}`. -/
theorem validateField_pattern_full_match_refuted :
    parseRegex "b" = .ok (.cat (.char 'b') .eps) ∧
    rmatch (.cat (.char 'b') .eps) "abc".toList = false ∧
    validateField { textField "abc" with pattern := some "b" } false =
      ⟨true, none⟩ := by
  decide

/-- C8 (amended): with a declared, non-empty, compilable pattern and a
non-empty trimmed value on a generic field, if `re.test` finds no match
anywhere in the value the verdict is `{valid: false, reason: format}`
(an earlier type/length check that fails first also yields `format`). -/
theorem validateField_pattern_test (f : Field) (e : Bool)
    (hty : ¬(fieldTypeAttr f = "checkbox" ∨ fieldTypeAttr f = "radio"))
    (hv : fieldValue f ≠ "") (p : String) (hp : f.pattern = some p)
    (hpe : p ≠ "") (r : Regex) (hr : parseRegex p = .ok r)
    (ht : rtest r (fieldValue f).toList = false) :
    validateField f e = ⟨false, some .format⟩ := by
  have hcp : checkPattern f.pattern (fieldValue f) = false := by
    rw [hp]
    show (if p = "" then true
      else match parseRegex p with
        | .ok r => rtest r (fieldValue f).toList
        | .jsError => true
        | .unsupported => true) = false
    rw [if_neg hpe, hr]; exact ht
  unfold validateField
  rw [if_neg hty, if_neg (fun hh => hv hh.1), if_neg (fun hh => hv hh.2)]
  by_cases h₁ : fieldTypeAttr f = "tel" ∧ jsTelTest (fieldValue f) = false
  · rw [if_pos h₁]
  rw [if_neg h₁]
  by_cases h₂ : fieldTypeAttr f = "email" ∧ jsEmailTest (fieldValue f) = false
  · rw [if_pos h₂]
  rw [if_neg h₂]
  by_cases h₃ : fieldTypeAttr f = "email" ∧ f.businessEmailOnly = true ∧
      (fieldValue f).toList.contains '@' = false
  · rw [if_pos h₃]
  rw [if_neg h₃]
  by_cases h₄ : fieldTypeAttr f = "email" ∧ f.businessEmailOnly = true ∧
      freeDomains.contains (emailDomain (fieldValue f)) = true
  · rw [if_pos h₄]
  rw [if_neg h₄]
  by_cases h₅ : fieldTypeAttr f = "url" ∧ jsUrlTest (fieldValue f) = false
  · rw [if_pos h₅]
  rw [if_neg h₅, if_neg (fun hh => hv hh.2)]
  by_cases h₆ : fieldTypeAttr f = "number" ∧ jsNumber (fieldValue f) = none
  · rw [if_pos h₆]
  rw [if_neg h₆]
  by_cases h₇ : fieldTypeAttr f = "number" ∧
      numBelowMin f.min ((jsNumber (fieldValue f)).getD 0) = true
  · rw [if_pos h₇]
  rw [if_neg h₇]
  by_cases h₈ : fieldTypeAttr f = "number" ∧
      numAboveMax f.max ((jsNumber (fieldValue f)).getD 0) = true
  · rw [if_pos h₈]
  rw [if_neg h₈]
  by_cases h₉ : lenBelowMin f.minlength (fieldValue f) = true
  · rw [if_pos h₉]
  rw [if_neg h₉]
  by_cases h₁₀ : lenAboveMax f.maxlength (fieldValue f) = true
  · rw [if_pos h₁₀]
  rw [if_neg h₁₀, if_pos hcp]


/-- C8, leniency half: a declared pattern whose compilation raises a
`SyntaxError` (`new RegExp` throws, caught by the `try`/`catch` of lines
218–225; `parseRegex p = .jsError` maps exactly such patterns) is treated
as an absent pattern: the verdict is the one the field would get with no
`pattern` attribute at all, and no error reaches the caller. -/
theorem validateField_invalid_pattern_ignored (f : Field) (e : Bool)
    (p : String) (hp : f.pattern = some p) (hr : parseRegex p = .jsError) :
    validateField f e = validateField { f with pattern := none } e := by
  have h1 : ∀ x, checkPattern (some p) x = true := by
    intro x
    by_cases hpe : p = ""
    · simp [checkPattern, hpe]
    · simp [checkPattern, hpe, hr]
  cases f with
  | mk tg ty v ch rq bz mn mx ml xl pat se nm fid dn =>
    simp only at hp
    subst hp
    unfold validateField
    simp only [h1]
    simp [checkPattern, fieldTypeAttr, fieldValue, isRequiredOf]

/-- C8 (amended, both halves): a non-empty declared pattern constrains the
value by `re.test` semantics — no match anywhere in the value means
`{valid: false, reason: format}` for a generic field with a non-empty
trimmed value — and a pattern that does not compile is treated as absent,
with no error reaching the caller. -/
theorem validateField_pattern_semantics :
    (∀ (f : Field) (e : Bool),
      ¬(fieldTypeAttr f = "checkbox" ∨ fieldTypeAttr f = "radio") →
      fieldValue f ≠ "" → ∀ (p : String), f.pattern = some p → p ≠ "" →
      ∀ (r : Regex), parseRegex p = .ok r →
      rtest r (fieldValue f).toList = false →
      validateField f e = ⟨false, some .format⟩) ∧
    (∀ (f : Field) (e : Bool) (p : String), f.pattern = some p →
      parseRegex p = .jsError →
      validateField f e = validateField { f with pattern := none } e) :=
  ⟨fun f e hty hv p hp hpe r hr ht =>
      validateField_pattern_test f e hty hv p hp hpe r hr ht,
   fun f e p hp hr => validateField_invalid_pattern_ignored f e p hp hr⟩

/-- Witness for `validateField_pattern_semantics`: the character-class
pattern `[0-9]` rejects `"abc"` with `format` (and is enforced, not
ignored), while the genuinely JS-invalid pattern `"("` is ignored. -/
theorem validateField_pattern_semantics_witness :
    validateField { textField "abc" with pattern := some "[0-9]" } false =
      ⟨false, some .format⟩ ∧
    validateField { textField "xyz" with pattern := some "(" } false =
      validateField { textField "xyz" with pattern := none } false :=
  ⟨validateField_pattern_semantics.1 { textField "abc" with pattern := some "[0-9]" }
      false (by decide) (by decide) "[0-9]" (by decide) (by decide)
      (.cat (.cls false [.range '0' '9']) .eps) (by decide) (by decide),
   validateField_pattern_semantics.2 { textField "xyz" with pattern := some "(" }
      false "(" (by decide) (by decide)⟩

/-- An error-display element (`[data-error-text]`): its key attribute, its
`is-visible` class, its `textContent`, and its `dataset.defaultMessage`
(absent = `none`; an attribute set to the empty string is `some ""` and is
falsy on read, like the source's `!errorEl.dataset.defaultMessage`). -/
structure ErrorSlot where
  /-- the `data-error-text` attribute. -/
  dataErrorText : String
  /-- whether `classList` contains `is-visible`. -/
  visible : Bool
  /-- `textContent`. -/
  text : String
  /-- `dataset.defaultMessage`. -/
  defaultMessage : Option String
deriving DecidableEq, Repr

instance : Inhabited ErrorSlot := ⟨⟨"", false, "", none⟩⟩

/-- Property read on the plain-object map (`map[key]` truthiness check and
the later `errorMap[key]` access): first matching entry. -/
def mapLookup : List (String × Nat) → String → Option Nat
  | [], _ => none
  | (k, v) :: rest, key => if key = k then some v else mapLookup rest key

/-- Loop body of `buildErrorMap` (lines 36–46), over the remaining slots.
`i` is the DOM index of the next slot, `map` the association list built so
far (property set / read on a plain `{}`), `done` the already visited slots
with their mutated visibility.  A slot with an empty normalized key is
skipped by the early `return` *before* the `classList.remove('is-visible')`
line, so it is carried over unchanged. -/
def bemGo (i : Nat) (els : List ErrorSlot) (map : List (String × Nat))
    (done : List ErrorSlot) : List (String × Nat) × List ErrorSlot :=
  match els with
  | [] => (map, done)
  | el :: rest =>
    if normalizeKey (some el.dataErrorText) = "" then
      bemGo (i + 1) rest map (done ++ [el])
    else
      bemGo (i + 1) rest
        (if (mapLookup map (normalizeKey (some el.dataErrorText))).isSome then map
         else map ++ [(normalizeKey (some el.dataErrorText), i)])
        (done ++ [{ el with visible := false }])

/-- `buildErrorMap(form)` (lines 32–49): returns the key→slot map (slots
named by DOM index) and the slots as the loop leaves them. -/
def buildErrorMap (slots : List ErrorSlot) : List (String × Nat) × List ErrorSlot :=
  bemGo 0 slots [] []

/-- The slots list produced by `buildErrorMap`: every slot whose normalized
key is non-empty comes out with its visibility forced off; a slot whose key
normalizes to the empty string is skipped by the early `return` before the
`classList.remove` and keeps its visibility. -/
theorem bemGo_slots (els : List ErrorSlot) (i : Nat) (map : List (String × Nat))
    (done : List ErrorSlot) :
    (bemGo i els map done).2 = done ++ els.map (fun el =>
      if normalizeKey (some el.dataErrorText) = "" then el
      else { el with visible := false }) := by
  induction els generalizing i map done with
  | nil => simp [bemGo]
  | cons el rest ih =>
    unfold bemGo
    by_cases hk : normalizeKey (some el.dataErrorText) = ""
    · rw [if_pos hk, ih, List.map_cons, if_pos hk]
      simp
    · rw [if_neg hk, ih, List.map_cons, if_neg hk]
      simp

/-- C6 counterexample: a discovered slot whose `data-error-text` normalizes
to the empty key (here `"--"`) is *not* reset — the early `return` at line
39 fires before the `classList.remove('is-visible')` at line 45, so a slot
that starts visible stays visible, contradicting the claim that every
discovered slot's visibility is forced off. -/
theorem buildErrorMap_reset_refuted :
    ((buildErrorMap [⟨"--", true, "msg", none⟩]).2.getD 0 default).visible
      = true := by
  decide

/-- C6 (amended): during error-map building, every discovered slot whose
normalized key is non-empty has its visible marker removed — including
duplicate-key slots that do not end up in the map — while slots whose key
normalizes to the empty string are skipped untouched (before the reset
line); nothing else about the slots changes. -/
theorem buildErrorMap_resets_nonempty_keys (slots : List ErrorSlot) :
    (buildErrorMap slots).2 = slots.map (fun el =>
      if normalizeKey (some el.dataErrorText) = "" then el
      else { el with visible := false }) := by
  unfold buildErrorMap
  rw [bemGo_slots]
  simp

example :
    (buildErrorMap [⟨"Email", true, "m1", none⟩, ⟨"E-MAIL", true, "m2", none⟩]).1
      = [("email", 0)] ∧
    (buildErrorMap [⟨"Email", true, "m1", none⟩, ⟨"E-MAIL", true, "m2", none⟩]).2
      = [⟨"Email", false, "m1", none⟩, ⟨"E-MAIL", false, "m2", none⟩] := by
  decide

/-- Interaction context of `handleField` (line 272):
`'input' | 'blur' | 'change' | 'submit' | 'other'`. -/
inductive Ctx where
  | input : Ctx
  | blur : Ctx
  | change : Ctx
  | submit : Ctx
  | other : Ctx
deriving DecidableEq, Repr, Inhabited

/-- The per-form state the script mutates: the fields discovered at setup
(in DOM order; their attributes and live values), the `is-invalid` class of
each field (parallel list), the error slots (in DOM order) and the
key→slot-index map built once by `buildErrorMap`. -/
structure FormState where
  /-- `form.querySelectorAll('input, textarea, select')`, DOM order. -/
  fields : List Field
  /-- per-field `classList.contains('is-invalid')`, parallel to `fields`. -/
  invalid : List Bool
  /-- the `[data-error-text]` elements, DOM order. -/
  slots : List ErrorSlot
  /-- `buildErrorMap(form)`: normalized key → slot index. -/
  errorMap : List (String × Nat)
deriving Repr

/-- `getFieldKey(field)` (lines 21–27): `name || id || data-name` with JS
falsy fallback (an empty attribute value also falls through), normalized. -/
def jsOrAttr (a b : Option String) : Option String :=
  match a with
  | some s => if s = "" then b else some s
  | none => b

def getFieldKey (f : Field) : String :=
  normalizeKey (jsOrAttr f.name (jsOrAttr f.id f.dataName))

/-- `var errorEl = key ? errorMap[key] : null` (line 276): the slot index
matched to field `i`, or `none`. -/
def slotIdxFor (st : FormState) (i : Nat) : Option Nat :=
  if getFieldKey (st.fields.getD i default) = "" then none
  else mapLookup st.errorMap (getFieldKey (st.fields.getD i default))

/-- Lazy capture of the slot's default message (lines 69–71): the source
guard is the *falsy* check `!errorEl.dataset.defaultMessage`, so an absent
dataset entry — and equally one holding the empty string — triggers
(re-)capture from the current `textContent`. -/
def captureDefault (slot : ErrorSlot) : ErrorSlot :=
  if slot.defaultMessage.getD "" = "" then
    { slot with defaultMessage := some slot.text }
  else slot

/-- The `hasError` branch of `setFieldErrorState` on the slot (lines 73–83):
show the slot; display the `data-second-error` override exactly for a
`format` reason on a field carrying that attribute, the captured default
message otherwise. -/
def showSlot (slot : ErrorSlot) (f : Field) (reason : Option Reason) : ErrorSlot :=
  if reason = some .format ∧ f.secondError.isSome then
    { slot with visible := true, text := f.secondError.getD "" }
  else
    { slot with visible := true, text := slot.defaultMessage.getD "" }

/-- The clearing branch (lines 84–89): hide the slot and restore the
captured default message. -/
def hideSlot (slot : ErrorSlot) : ErrorSlot :=
  { slot with visible := false, text := slot.defaultMessage.getD "" }

/-- `setFieldErrorState(field, errorEl, hasError, reason)` (lines 57–90).
The field is addressed by its index `i` (for the `is-invalid` class) plus
its record `f` (for the `data-second-error` attribute); `errorIdx` is the
matched slot index, `none` when there is no error element. -/
def setFieldErrorState (st : FormState) (i : Nat) (f : Field)
    (errorIdx : Option Nat) (hasError : Bool) (reason : Option Reason) :
    FormState :=
  match errorIdx with
  | none => { st with invalid := st.invalid.set i hasError }
  | some j =>
    if hasError then
      { st with invalid := st.invalid.set i true,
                slots := st.slots.set j
                  (showSlot (captureDefault (st.slots.getD j default)) f reason) }
    else
      { st with invalid := st.invalid.set i false,
                slots := st.slots.set j
                  (hideSlot (captureDefault (st.slots.getD j default))) }

/-- The display-suppression policy of `handleField` (lines 278–298):
start from `!result.valid`; force `false` for checkbox/radio outside the
submit context; force `false` in `input`/`blur`/`change` when the current
trimmed value is empty. -/
def shouldShowError (f : Field) (valid : Bool) (c : Ctx) : Bool :=
  if (fieldTypeAttr f = "checkbox" ∨ fieldTypeAttr f = "radio") ∧ c ≠ .submit then
    false
  else if (c = .input ∨ c = .blur ∨ c = .change) ∧ jsTrim f.value = "" then
    false
  else !valid

/-- `handleField(field, context)` (lines 273–302): validate, decide display,
present, and return `result.valid`. -/
def handleField (st : FormState) (i : Nat) (c : Ctx) : FormState × Bool :=
  (setFieldErrorState st i (st.fields.getD i default) (slotIdxFor st i)
     (shouldShowError (st.fields.getD i default)
       (validateField (st.fields.getD i default) (slotIdxFor st i).isSome).valid c)
     (validateField (st.fields.getD i default) (slotIdxFor st i).isSome).reason,
   (validateField (st.fields.getD i default) (slotIdxFor st i).isSome).valid)

/-- An email field (business-only) carrying a `data-second-error` override,
keyed `email`, as in a typical form using the script. -/
def staleDemoField : Field :=
  { emailField "x@gmail.com" true with name := some "email", secondError := some "Use a business email" }

/-- A form whose single error slot starts with empty `textContent` (its
visual text coming from CSS or being intentionally blank until an error). -/
def staleDemoState : FormState :=
  { fields := [staleDemoField], invalid := [false],
    slots := [⟨"email", false, "", none⟩], errorMap := [("email", 0)] }

/-- C9 failing trace: present a `format` error with the override, then clear
it.  The capture guard `!errorEl.dataset.defaultMessage` (line 69) is a
falsy check, so the originally captured default — the empty string — is
*re-captured* on the second presentation after the override has replaced the
slot text; clearing then "restores" the override text instead of the
original default.  The slot text after the clearing presentation is the
override, not the originally captured `""`, contradicting the claim (and the
source's own comments "Remember the original/default message once" and
"Restore default message when clearing errors"). -/
theorem setFieldErrorState_stale_override :
    ((setFieldErrorState staleDemoState 0 staleDemoField (some 0) true
        (some .format)).slots.getD 0 default).defaultMessage = some "" ∧
    ((setFieldErrorState
        (setFieldErrorState staleDemoState 0 staleDemoField (some 0) true
          (some .format))
        0 staleDemoField (some 0) false none).slots.getD 0 default).text
      = "Use a business email" ∧
    ((setFieldErrorState
        (setFieldErrorState staleDemoState 0 staleDemoField (some 0) true
          (some .format))
        0 staleDemoField (some 0) false none).slots.getD 0 default).visible
      = false := by
  decide

/-- With `hasError = false`, `setFieldErrorState` clears the field marker
regardless of whether a slot exists. -/
theorem setFieldErrorState_invalid (st : FormState) (i : Nat) (f : Field)
    (eIdx : Option Nat) (hasErr : Bool) (r : Option Reason) :
    (setFieldErrorState st i f eIdx hasErr r).invalid = st.invalid.set i hasErr := by
  cases eIdx with
  | none => rfl
  | some j => cases hasErr <;> rfl

theorem setFieldErrorState_invalid_length (st : FormState) (i : Nat) (f : Field)
    (eIdx : Option Nat) (hasErr : Bool) (r : Option Reason) :
    (setFieldErrorState st i f eIdx hasErr r).invalid.length = st.invalid.length := by
  rw [setFieldErrorState_invalid, List.length_set]

theorem handleField_invalid_length (st : FormState) (i : Nat) (c : Ctx) :
    (handleField st i c).1.invalid.length = st.invalid.length :=
  setFieldErrorState_invalid_length ..

end WebflowValidation
